import Mathlib

/-!
Verification of the hord look-aside cache layer.

This file shallowly embeds the core of the `madflojo/hord` repository:
the sentinel error values and validation helpers of `hord.go`, the
look-aside composite driver of `drivers/cache/lookaside/lookaside.go`,
the cache factory of `drivers/cache/cache.go` (the version dispatching
on `CacheType`), and the in-memory hashmap driver of
`drivers/hashmap/hashmap.go`.

Go byte slices become `Option (List Nat)` (with `none` for a nil
slice), Go `error` results become `Option GoError`, and each inner
`hord.Database` handle becomes an explicit record of pure state-passing
functions (`DBImpl`).  Every composite operation additionally returns
the list of inner-store invocations it performed, so that claims of the
form "the data store's Get is never invoked" are directly statable.
-/

/-- Contents of a non-nil Go byte slice, one `Nat` per byte. -/
abbrev Bytes := List Nat

/-- A Go `[]byte` value: `none` is the nil slice, `some l` a slice with
contents `l`. -/
abbrev GoBytes := Option Bytes

/-- The Go error values that flow through the cache layer.  The hord
sentinel errors (`ErrNil`, `ErrNoDial`, `ErrInvalidKey`,
`ErrInvalidData`, `ErrInvalidDatabase`, `ErrInvalidCache`,
`ErrCacheError`, the cache package's `ErrNoType`) are distinct values
created once with `errors.New`/`fmt.Errorf`, so they are modelled as
distinct constructors.  `backend n` stands for an opaque
backend-specific error, and `wrap outer inner` models
`fmt.Errorf("%w: %w", outer, inner)`, which wraps both operands. -/
inductive GoError where
  | errNil
  | errNoDial
  | errInvalidKey
  | errInvalidData
  | errInvalidDatabase
  | errInvalidCache
  | errCacheError
  | errNoType
  | backend (n : Nat)
  | wrap (outer inner : GoError)
deriving DecidableEq, Repr

/-- Go `errors.Is(e, target)` for the error values above: an error
matches a target if it equals it or if it wraps an error matching it.
Sentinel errors have no `Unwrap`/`Is` methods, so unwrapping only
happens through `wrap`. -/
def GoError.is : GoError → GoError → Bool
  | e, target =>
    match e with
    | .wrap outer inner => e = target || outer.is target || inner.is target
    | _ => e = target

/-- Go `errors.Is` applied to a possibly-nil error variable:
`errors.Is(nil, target)` is false for the non-nil targets used here. -/
def goIs (e : Option GoError) (target : GoError) : Bool :=
  match e with
  | none => false
  | some e => e.is target

/-- `hord.ValidKey` from `hord.go`: succeeds iff the key is non-empty,
otherwise returns `ErrInvalidKey`. -/
def ValidKey (key : String) : Option GoError :=
  if key.length > 0 then none else some GoError.errInvalidKey

/-- Go `len` of a `[]byte`: a nil slice has length 0. -/
def goLen (d : GoBytes) : Nat :=
  match d with
  | none => 0
  | some l => l.length

/-- `hord.ValidData` from `hord.go`: succeeds iff the data is
non-empty, otherwise returns `ErrInvalidData`. -/
def ValidData (d : GoBytes) : Option GoError :=
  if goLen d > 0 then none else some GoError.errInvalidData

/-- A `hord.Database` handle as consumed by the composite: a record of
pure functions over an explicit state of type `σ`, one per interface
method.  `get` and `keys` return their Go result pair together with the
possibly-updated state; `close` only updates the state. -/
structure DBImpl (σ : Type) where
  setup : σ → Option GoError × σ
  healthCheck : σ → Option GoError × σ
  get : σ → String → (GoBytes × Option GoError) × σ
  set : σ → String → GoBytes → Option GoError × σ
  delete : σ → String → Option GoError × σ
  keys : σ → (Option (List String) × Option GoError) × σ
  close : σ → σ

/-- One invocation of an inner-store method by the composite, recorded
in the order the composite performs them. -/
inductive Event where
  | dataSetup | cacheSetup
  | dataHealthCheck | cacheHealthCheck
  | dataGet (key : String) | cacheGet (key : String)
  | dataSet (key : String) (data : GoBytes)
  | cacheSet (key : String) (data : GoBytes)
  | dataDelete (key : String) | cacheDelete (key : String)
  | dataKeys | cacheKeys
  | dataClose | cacheClose
deriving DecidableEq, Repr

/-- Result of one composite operation: the Go return value of type `α`,
the Go error, the final states of the two inner stores, and the list of
inner invocations performed. -/
structure OpOut (σ τ α : Type) where
  result : α
  error : Option GoError
  dataState : σ
  cacheState : τ
  trace : List Event
deriving Repr

/-- The `Lookaside` struct of `lookaside.go`: two inner handles.  Each
field is an `Option` so that a nil `data` or `cache` interface value is
representable; a nil `*Lookaside` receiver is modelled by passing
`none` at the `Option (Lookaside σ τ)` type of every method. -/
structure Lookaside (σ τ : Type) where
  data : Option (DBImpl σ)
  cache : Option (DBImpl τ)

/-- The `db == nil || db.data == nil || db.cache == nil` guard at the
top of every `Lookaside` method. -/
def notDialed (db : Option (Lookaside σ τ)) : Bool :=
  match db with
  | none => true
  | some la => la.data.isNone || la.cache.isNone

/-- `lookaside.Dial`: fails with `hord.ErrInvalidDatabase` when either
handle is nil, otherwise returns the composite wired to the two
handles. -/
def Lookaside.Dial (database : Option (DBImpl σ)) (cache : Option (DBImpl τ)) :
    Except GoError (Lookaside σ τ) :=
  if database.isNone || cache.isNone then
    Except.error GoError.errInvalidDatabase
  else
    Except.ok { data := database, cache := cache }

/-- `Lookaside.Setup`: data first, cache only if data succeeded. -/
def Lookaside.Setup (db : Option (Lookaside σ τ)) (s : σ) (t : τ) :
    OpOut σ τ Unit :=
  match db with
  | none => ⟨(), some GoError.errNoDial, s, t, []⟩
  | some la =>
    match la.data, la.cache with
    | some d, some c =>
      let (derr, s1) := d.setup s
      match derr with
      | some e => ⟨(), some e, s1, t, [Event.dataSetup]⟩
      | none =>
        let (cerr, t1) := c.setup t
        match cerr with
        | some e => ⟨(), some e, s1, t1, [Event.dataSetup, Event.cacheSetup]⟩
        | none => ⟨(), none, s1, t1, [Event.dataSetup, Event.cacheSetup]⟩
    | _, _ => ⟨(), some GoError.errNoDial, s, t, []⟩

/-- `Lookaside.HealthCheck`: both inner checks always run; the data
store's error takes priority. -/
def Lookaside.HealthCheck (db : Option (Lookaside σ τ)) (s : σ) (t : τ) :
    OpOut σ τ Unit :=
  match db with
  | none => ⟨(), some GoError.errNoDial, s, t, []⟩
  | some la =>
    match la.data, la.cache with
    | some d, some c =>
      let (dataErr, s1) := d.healthCheck s
      let (cacheErr, t1) := c.healthCheck t
      let err := if dataErr.isSome then dataErr
                 else if cacheErr.isSome then cacheErr
                 else none
      ⟨(), err, s1, t1, [Event.dataHealthCheck, Event.cacheHealthCheck]⟩
    | _, _ => ⟨(), some GoError.errNoDial, s, t, []⟩

/-- `Lookaside.Get` from `lookaside.go`: check the cache first; a
non-`ErrNil` error propagates, a hit returns immediately; on a miss the
data store is queried, its error propagated verbatim; on a data hit the
value is written back to the cache, a failed write being wrapped as
`fmt.Errorf("%w: %w", hord.ErrCacheError, err)`. -/
def Lookaside.Get (db : Option (Lookaside σ τ)) (s : σ) (t : τ) (key : String) :
    OpOut σ τ GoBytes :=
  match db with
  | none => ⟨none, some GoError.errNoDial, s, t, []⟩
  | some la =>
    match la.data, la.cache with
    | some d, some c =>
      let ((cdata, cerr), t1) := c.get t key
      if cerr.isSome && !(goIs cerr GoError.errNil) then
        ⟨none, cerr, s, t1, [Event.cacheGet key]⟩
      else if !(goIs cerr GoError.errNil) then
        ⟨cdata, none, s, t1, [Event.cacheGet key]⟩
      else
        let ((ddata, derr), s1) := d.get s key
        match derr with
        | some e => ⟨none, some e, s1, t1, [Event.cacheGet key, Event.dataGet key]⟩
        | none =>
          let (serr, t2) := c.set t1 key ddata
          match serr with
          | some e =>
            ⟨ddata, some (GoError.wrap GoError.errCacheError e), s1, t2,
              [Event.cacheGet key, Event.dataGet key, Event.cacheSet key ddata]⟩
          | none =>
            ⟨ddata, none, s1, t2,
              [Event.cacheGet key, Event.dataGet key, Event.cacheSet key ddata]⟩
    | _, _ => ⟨none, some GoError.errNoDial, s, t, []⟩

/-- `Lookaside.Set`: data store first; on its failure return at once
without touching the cache, otherwise write the cache and propagate its
error verbatim. -/
def Lookaside.Set (db : Option (Lookaside σ τ)) (s : σ) (t : τ)
    (key : String) (data : GoBytes) : OpOut σ τ Unit :=
  match db with
  | none => ⟨(), some GoError.errNoDial, s, t, []⟩
  | some la =>
    match la.data, la.cache with
    | some d, some c =>
      let (derr, s1) := d.set s key data
      match derr with
      | some e => ⟨(), some e, s1, t, [Event.dataSet key data]⟩
      | none =>
        let (cerr, t1) := c.set t key data
        ⟨(), cerr, s1, t1, [Event.dataSet key data, Event.cacheSet key data]⟩
    | _, _ => ⟨(), some GoError.errNoDial, s, t, []⟩

/-- `Lookaside.Delete`: both inner deletes always run; the data store's
error takes priority. -/
def Lookaside.Delete (db : Option (Lookaside σ τ)) (s : σ) (t : τ)
    (key : String) : OpOut σ τ Unit :=
  match db with
  | none => ⟨(), some GoError.errNoDial, s, t, []⟩
  | some la =>
    match la.data, la.cache with
    | some d, some c =>
      let (dataErr, s1) := d.delete s key
      let (cacheErr, t1) := c.delete t key
      let err := if dataErr.isSome then dataErr
                 else if cacheErr.isSome then cacheErr
                 else none
      ⟨(), err, s1, t1, [Event.dataDelete key, Event.cacheDelete key]⟩
    | _, _ => ⟨(), some GoError.errNoDial, s, t, []⟩

/-- `Lookaside.Keys`: delegates to the data store only. -/
def Lookaside.Keys (db : Option (Lookaside σ τ)) (s : σ) (t : τ) :
    OpOut σ τ (Option (List String)) :=
  match db with
  | none => ⟨none, some GoError.errNoDial, s, t, []⟩
  | some la =>
    match la.data, la.cache with
    | some d, some _ =>
      let ((ks, err), s1) := d.keys s
      ⟨ks, err, s1, t, [Event.dataKeys]⟩
    | _, _ => ⟨none, some GoError.errNoDial, s, t, []⟩

/-- `Lookaside.CacheKeys`: delegates to the cache store only. -/
def Lookaside.CacheKeys (db : Option (Lookaside σ τ)) (s : σ) (t : τ) :
    OpOut σ τ (Option (List String)) :=
  match db with
  | none => ⟨none, some GoError.errNoDial, s, t, []⟩
  | some la =>
    match la.data, la.cache with
    | some _, some c =>
      let ((ks, err), t1) := c.keys t
      ⟨ks, err, s, t1, [Event.cacheKeys]⟩
    | _, _ => ⟨none, some GoError.errNoDial, s, t, []⟩

/-- `Lookaside.Close`: closes both inner handles when fully dialed,
otherwise does nothing; never returns an error. -/
def Lookaside.Close (db : Option (Lookaside σ τ)) (s : σ) (t : τ) :
    OpOut σ τ Unit :=
  match db with
  | none => ⟨(), none, s, t, []⟩
  | some la =>
    match la.data, la.cache with
    | some d, some c =>
      ⟨(), none, d.close s, c.close t, [Event.dataClose, Event.cacheClose]⟩
    | _, _ => ⟨(), none, s, t, []⟩

/-- The `cache` package's `Type` string with its two constants
(`Lookaside = "lookaside"`, `None = "none"`); any other string is
unrecognized. -/
abbrev CacheType := String

/-- The `Lookaside` constant of the cache package. -/
def CacheType.lookasideType : CacheType := "lookaside"

/-- The `None` constant of the cache package. -/
def CacheType.noneType : CacheType := "none"

/-- The cache factory's `Config`: a `CacheType` selector and the two
inner handles. -/
structure FactoryConfig (σ τ : Type) where
  cacheType : CacheType
  database : Option (DBImpl σ)
  cache : Option (DBImpl τ)

/-- Result of the factory `Dial`: the look-aside composite, the
database handle passed through unwrapped, or an error. -/
inductive DialResult (σ τ : Type) where
  | lookasideDriver (la : Lookaside σ τ)
  | passthrough (d : DBImpl σ)
  | failure (e : GoError)

/-- The cache factory `Dial` of `drivers/cache/cache.go` (the version
dispatching on `CacheType`): a nil `Database` or nil `Cache` fails with
`hord.ErrInvalidDatabase` before the `CacheType` switch; `Lookaside`
defers to `lookaside.Dial`, `None` returns the database handle
unwrapped, anything else fails with `ErrNoType`. -/
def cache.Dial (cfg : FactoryConfig σ τ) : DialResult σ τ :=
  if cfg.database.isNone || cfg.cache.isNone then
    DialResult.failure GoError.errInvalidDatabase
  else if cfg.cacheType = CacheType.lookasideType then
    match Lookaside.Dial cfg.database cfg.cache with
    | Except.ok la => DialResult.lookasideDriver la
    | Except.error e => DialResult.failure e
  else if cfg.cacheType = CacheType.noneType then
    match cfg.database with
    | some d => DialResult.passthrough d
    | none => DialResult.failure GoError.errInvalidDatabase
  else
    DialResult.failure GoError.errNoType

/-- State of the hashmap driver: `none` after `Close` (the `data` map
set to nil), otherwise the association list holding the map entries,
most recent write first. -/
abbrev HashmapState := Option (List (String × GoBytes))

/-- Association-list lookup modelling Go map indexing. -/
def assocGet (m : List (String × GoBytes)) (key : String) : Option GoBytes :=
  match m with
  | [] => none
  | (k, v) :: rest => if k = key then some v else assocGet rest key

/-- Association-list update modelling Go map assignment: replaces the
binding for `key` if present, otherwise prepends it. -/
def assocSet (m : List (String × GoBytes)) (key : String) (data : GoBytes) :
    List (String × GoBytes) :=
  match m with
  | [] => [(key, data)]
  | (k, v) :: rest =>
    if k = key then (k, data) :: rest else (k, v) :: assocSet rest key data

/-- Association-list removal modelling Go `delete`. -/
def assocDelete (m : List (String × GoBytes)) (key : String) :
    List (String × GoBytes) :=
  match m with
  | [] => []
  | (k, v) :: rest =>
    if k = key then assocDelete rest key else (k, v) :: assocDelete rest key

/-- `hashmap.Dial`: a fresh driver with an empty live map. -/
def hashmap.Dial : HashmapState := some []

/-- `hashmap` driver `Setup`: does nothing. -/
def hashmap.Setup (s : HashmapState) : Option GoError × HashmapState :=
  (none, s)

/-- `hashmap` driver `HealthCheck`: fails with `ErrNoDial` on a closed
driver, otherwise succeeds. -/
def hashmap.HealthCheck (s : HashmapState) : Option GoError × HashmapState :=
  match s with
  | none => (some GoError.errNoDial, s)
  | some _ => (none, s)

/-- `hashmap` driver `Get`: validates the key, then looks the key up in
the map; a miss returns the empty (non-nil) slice together with
`hord.ErrNil`, error paths also return the empty slice. -/
def hashmap.Get (s : HashmapState) (key : String) :
    (GoBytes × Option GoError) × HashmapState :=
  match ValidKey key with
  | some e => ((some [], some e), s)
  | none =>
    match s with
    | none => ((some [], some GoError.errNoDial), s)
    | some m =>
      match assocGet m key with
      | some v => ((v, none), s)
      | none => ((some [], some GoError.errNil), s)

/-- `hashmap` driver `Set`: validates key and data, then stores the
slice under the key. -/
def hashmap.Set (s : HashmapState) (key : String) (data : GoBytes) :
    Option GoError × HashmapState :=
  match ValidKey key with
  | some e => (some e, s)
  | none =>
    match ValidData data with
    | some e => (some e, s)
    | none =>
      match s with
      | none => (some GoError.errNoDial, s)
      | some m => (none, some (assocSet m key data))

/-- `hashmap` driver `Delete`: validates the key, then removes it;
deleting an absent key succeeds. -/
def hashmap.Delete (s : HashmapState) (key : String) :
    Option GoError × HashmapState :=
  match ValidKey key with
  | some e => (some e, s)
  | none =>
    match s with
    | none => (some GoError.errNoDial, s)
    | some m => (none, some (assocDelete m key))

/-- `hashmap` driver `Keys`: the keys of the map; with no entries the
`var keys []string` slice stays nil. -/
def hashmap.Keys (s : HashmapState) :
    (Option (List String) × Option GoError) × HashmapState :=
  match s with
  | none => ((some [], some GoError.errNoDial), s)
  | some m =>
    match m with
    | [] => ((none, none), s)
    | _ => ((some (m.map Prod.fst), none), s)

/-- `hashmap` driver `Close`: sets the map to nil. -/
def hashmap.Close (_ : HashmapState) : HashmapState := none

/-- The hashmap driver bundled as a `hord.Database` handle. -/
def hashmapImpl : DBImpl HashmapState where
  setup := hashmap.Setup
  healthCheck := hashmap.HealthCheck
  get := hashmap.Get
  set := hashmap.Set
  delete := hashmap.Delete
  keys := hashmap.Keys
  close := hashmap.Close

/-- A stateless mock handle built from fixed per-call results, in the
style of the repository's `mock` driver: every method returns the
configured value and leaves the (unit) state unchanged. -/
def mockImpl (getRes : String → GoBytes × Option GoError)
    (setRes : String → GoBytes → Option GoError)
    (deleteRes : String → Option GoError)
    (setupRes healthRes : Option GoError)
    (keysRes : Option (List String) × Option GoError) : DBImpl Unit where
  setup := fun s => (setupRes, s)
  healthCheck := fun s => (healthRes, s)
  get := fun s key => (getRes key, s)
  set := fun s key data => (setRes key data, s)
  delete := fun s key => (deleteRes key, s)
  keys := fun s => (keysRes, s)
  close := fun s => s

/-- A mock handle whose every method succeeds trivially. -/
def happyImpl : DBImpl Unit :=
  mockImpl (fun _ => (none, none)) (fun _ _ => none) (fun _ => none)
    none none (none, none)

/-- The key used by concrete witness instances. -/
def testKey : String := "rt"

/-- A `CacheType` string matching neither factory constant. -/
def bogusCacheType : CacheType := "bogus"

/-- Claim C1: on a cache miss (the nil-value signal), a successful
`data.Get` makes the composite `Get` return the fetched value and
subsequently invoke `cache.Set` with that exact value; any `data.Get`
error — including the nil-value signal — propagates directly with a nil
value. -/
theorem C1_get_miss_then_refill {σ τ : Type}
    (d : DBImpl σ) (c : DBImpl τ) (s : σ) (t : τ) (key : String)
    (cv : GoBytes) (ce : GoError) (t1 : τ)
    (hc : c.get t key = ((cv, some ce), t1))
    (hnil : ce.is GoError.errNil = true) :
    (∀ dv s1, d.get s key = ((dv, none), s1) →
      (Lookaside.Get (some ⟨some d, some c⟩) s t key).result = dv ∧
      (Lookaside.Get (some ⟨some d, some c⟩) s t key).trace =
        [Event.cacheGet key, Event.dataGet key, Event.cacheSet key dv]) ∧
    (∀ dv e s1, d.get s key = ((dv, some e), s1) →
      (Lookaside.Get (some ⟨some d, some c⟩) s t key).result = none ∧
      (Lookaside.Get (some ⟨some d, some c⟩) s t key).error = some e ∧
      (Lookaside.Get (some ⟨some d, some c⟩) s t key).trace =
        [Event.cacheGet key, Event.dataGet key]) := by
  constructor
  · intro dv s1 hd
    simp only [Lookaside.Get, hc, goIs, hnil, Bool.not_true, Option.isSome_some,
      Bool.and_false, Bool.false_eq_true, if_false, hd]
    constructor
    · cases hset : c.set t1 key dv with
      | mk serr t2 => cases serr <;> simp [hset]
    · cases hset : c.set t1 key dv with
      | mk serr t2 => cases serr <;> simp [hset]
  · intro dv e s1 hd
    simp only [Lookaside.Get, hc, goIs, hnil, Bool.not_true, Option.isSome_some,
      Bool.and_false, Bool.false_eq_true, if_false, hd]
    simp

/-- Witness for C1 at concrete mocks: a cache that always misses and a
data store holding `[7]` at key `testKey` (success branch), together with a
data store failing with `backend 1` (error branch). -/
theorem C1_get_miss_then_refill_witness :
    ((Lookaside.Get (some ⟨some (mockImpl (fun _ => (some [7], none))
        (fun _ _ => none) (fun _ => none) none none (none, none)),
      some (mockImpl (fun _ => (some [], some GoError.errNil))
        (fun _ _ => none) (fun _ => none) none none (none, none))⟩)
      () () testKey).result = some [7] ∧
     (Lookaside.Get (some ⟨some (mockImpl (fun _ => (some [7], none))
        (fun _ _ => none) (fun _ => none) none none (none, none)),
      some (mockImpl (fun _ => (some [], some GoError.errNil))
        (fun _ _ => none) (fun _ => none) none none (none, none))⟩)
      () () testKey).trace =
        [Event.cacheGet testKey, Event.dataGet testKey, Event.cacheSet testKey (some [7])]) ∧
    ((Lookaside.Get (some ⟨some (mockImpl (fun _ => (none, some (GoError.backend 1)))
        (fun _ _ => none) (fun _ => none) none none (none, none)),
      some (mockImpl (fun _ => (some [], some GoError.errNil))
        (fun _ _ => none) (fun _ => none) none none (none, none))⟩)
      () () testKey).error = some (GoError.backend 1)) := by
  refine ⟨(C1_get_miss_then_refill _ _ () () testKey (some []) GoError.errNil ()
    rfl rfl).1 (some [7]) () rfl, ?_⟩
  exact ((C1_get_miss_then_refill _ _ () () testKey (some []) GoError.errNil ()
    rfl rfl).2 none (GoError.backend 1) () rfl).2.1

/-- Claim C2: a cache hit (no error) makes the composite `Get` return
the cached value with no error and never touch the data store. -/
theorem C2_get_cache_hit_fast_path {σ τ : Type}
    (d : DBImpl σ) (c : DBImpl τ) (s : σ) (t : τ) (key : String)
    (cv : GoBytes) (t1 : τ)
    (hc : c.get t key = ((cv, none), t1)) :
    (Lookaside.Get (some ⟨some d, some c⟩) s t key).result = cv ∧
    (Lookaside.Get (some ⟨some d, some c⟩) s t key).error = none ∧
    (Lookaside.Get (some ⟨some d, some c⟩) s t key).trace =
      [Event.cacheGet key] := by
  simp [Lookaside.Get, hc, goIs]

/-- Witness for C2: a cache holding `[3]` at `testKey` beside a data store
that would fail with `backend 9` if it were ever consulted. -/
theorem C2_get_cache_hit_fast_path_witness :
    (Lookaside.Get (some ⟨some (mockImpl (fun _ => (none, some (GoError.backend 9)))
        (fun _ _ => none) (fun _ => none) none none (none, none)),
      some (mockImpl (fun _ => (some [3], none))
        (fun _ _ => none) (fun _ => none) none none (none, none))⟩)
      () () testKey).result = some [3] ∧
    (Lookaside.Get (some ⟨some (mockImpl (fun _ => (none, some (GoError.backend 9)))
        (fun _ _ => none) (fun _ => none) none none (none, none)),
      some (mockImpl (fun _ => (some [3], none))
        (fun _ _ => none) (fun _ => none) none none (none, none))⟩)
      () () testKey).trace = [Event.cacheGet testKey] := by
  have h := C2_get_cache_hit_fast_path
    (mockImpl (fun _ => (none, some (GoError.backend 9)))
      (fun _ _ => none) (fun _ => none) none none (none, none))
    (mockImpl (fun _ => (some [3], none))
      (fun _ _ => none) (fun _ => none) none none (none, none))
    () () testKey (some [3]) () rfl
  exact ⟨h.1, h.2.2⟩

/-- Claim C3: a cache failure that is not the nil-value signal is
returned as-is with a nil value, and the data store is never
consulted. -/
theorem C3_get_cache_error_propagates {σ τ : Type}
    (d : DBImpl σ) (c : DBImpl τ) (s : σ) (t : τ) (key : String)
    (cv : GoBytes) (ce : GoError) (t1 : τ)
    (hc : c.get t key = ((cv, some ce), t1))
    (hnotnil : ce.is GoError.errNil = false) :
    (Lookaside.Get (some ⟨some d, some c⟩) s t key).result = none ∧
    (Lookaside.Get (some ⟨some d, some c⟩) s t key).error = some ce ∧
    (Lookaside.Get (some ⟨some d, some c⟩) s t key).trace =
      [Event.cacheGet key] := by
  simp [Lookaside.Get, hc, goIs, hnotnil]

/-- Witness for C3: a cache failing with the sentinel `backend 2`
beside a data store that holds a value the composite must not serve. -/
theorem C3_get_cache_error_propagates_witness :
    (Lookaside.Get (some ⟨some (mockImpl (fun _ => (some [5], none))
        (fun _ _ => none) (fun _ => none) none none (none, none)),
      some (mockImpl (fun _ => (none, some (GoError.backend 2)))
        (fun _ _ => none) (fun _ => none) none none (none, none))⟩)
      () () testKey).error = some (GoError.backend 2) ∧
    (Lookaside.Get (some ⟨some (mockImpl (fun _ => (some [5], none))
        (fun _ _ => none) (fun _ => none) none none (none, none)),
      some (mockImpl (fun _ => (none, some (GoError.backend 2)))
        (fun _ _ => none) (fun _ => none) none none (none, none))⟩)
      () () testKey).trace = [Event.cacheGet testKey] := by
  have h := C3_get_cache_error_propagates
    (mockImpl (fun _ => (some [5], none))
      (fun _ _ => none) (fun _ => none) none none (none, none))
    (mockImpl (fun _ => (none, some (GoError.backend 2)))
      (fun _ _ => none) (fun _ => none) none none (none, none))
    () () testKey none (GoError.backend 2) () rfl rfl
  exact ⟨h.2.1, h.2.2⟩

/-- Claim C4: when the cache misses, the data store serves the value,
and the repopulation `cache.Set` fails, the composite `Get` returns the
fetched value together with a non-nil error (the wrapped cache-write
failure), never a clean success. -/
theorem C4_get_refill_failure_surfaced {σ τ : Type}
    (d : DBImpl σ) (c : DBImpl τ) (s : σ) (t : τ) (key : String)
    (cv dv : GoBytes) (ce e : GoError) (t1 t2 : τ) (s1 : σ)
    (hc : c.get t key = ((cv, some ce), t1))
    (hnil : ce.is GoError.errNil = true)
    (hd : d.get s key = ((dv, none), s1))
    (hcs : c.set t1 key dv = (some e, t2)) :
    (Lookaside.Get (some ⟨some d, some c⟩) s t key).result = dv ∧
    (Lookaside.Get (some ⟨some d, some c⟩) s t key).error =
      some (GoError.wrap GoError.errCacheError e) ∧
    (Lookaside.Get (some ⟨some d, some c⟩) s t key).error ≠ none := by
  simp [Lookaside.Get, hc, goIs, hnil, hd, hcs]

/-- Witness for C4: cache misses at `testKey` and its `Set` fails with
`backend 3`; the data store holds `[7]`. -/
theorem C4_get_refill_failure_surfaced_witness :
    (Lookaside.Get (some ⟨some (mockImpl (fun _ => (some [7], none))
        (fun _ _ => none) (fun _ => none) none none (none, none)),
      some (mockImpl (fun _ => (some [], some GoError.errNil))
        (fun _ _ => some (GoError.backend 3)) (fun _ => none)
        none none (none, none))⟩) () () testKey).result = some [7] ∧
    (Lookaside.Get (some ⟨some (mockImpl (fun _ => (some [7], none))
        (fun _ _ => none) (fun _ => none) none none (none, none)),
      some (mockImpl (fun _ => (some [], some GoError.errNil))
        (fun _ _ => some (GoError.backend 3)) (fun _ => none)
        none none (none, none))⟩) () () testKey).error =
      some (GoError.wrap GoError.errCacheError (GoError.backend 3)) := by
  have h := C4_get_refill_failure_surfaced
    (mockImpl (fun _ => (some [7], none))
      (fun _ _ => none) (fun _ => none) none none (none, none))
    (mockImpl (fun _ => (some [], some GoError.errNil))
      (fun _ _ => some (GoError.backend 3)) (fun _ => none)
      none none (none, none))
    () () testKey (some []) (some [7]) GoError.errNil (GoError.backend 3)
    () () () rfl rfl rfl rfl
  exact ⟨h.1, h.2.1⟩

/-- Counterexample to claim C5: with a data store whose `Set` succeeds
and a cache whose `Set` fails with the untagged backend error
`backend 3`, the composite `Set` returns that backend error verbatim —
`errors.Is` does not recognize it as `hord.ErrCacheError`, so the
post-commit cache-write failure of `Set` is not tagged as a cache-side
error. -/
theorem C5_set_error_not_tagged_counterexample :
    (Lookaside.Set (some ⟨some happyImpl,
      some (mockImpl (fun _ => (none, none)) (fun _ _ => some (GoError.backend 3))
        (fun _ => none) none none (none, none))⟩) () () testKey (some [1])).error =
      some (GoError.backend 3) ∧
    goIs (Lookaside.Set (some ⟨some happyImpl,
      some (mockImpl (fun _ => (none, none)) (fun _ _ => some (GoError.backend 3))
        (fun _ => none) none none (none, none))⟩) () () testKey (some [1])).error
      GoError.errCacheError = false := by
  exact ⟨rfl, rfl⟩

/-- Claim C5 as amended: only the repopulation-write failure inside
`Get` is tagged as a cache-side error (wrapped with
`hord.ErrCacheError`, recognizable via `errors.Is`); the post-commit
cache-write failure inside `Set` is propagated verbatim, untagged. -/
theorem C5_cache_error_tagging {σ τ : Type}
    (d : DBImpl σ) (c : DBImpl τ) (s : σ) (t : τ) (key : String)
    (w cv dv : GoBytes) (ce e e2 : GoError) (t1 t2 t3 : τ) (s1 s2 : σ)
    (hc : c.get t key = ((cv, some ce), t1))
    (hnil : ce.is GoError.errNil = true)
    (hd : d.get s key = ((dv, none), s1))
    (hcs : c.set t1 key dv = (some e, t2))
    (hds : d.set s key w = (none, s2))
    (hcs2 : c.set t key w = (some e2, t3)) :
    ((Lookaside.Get (some ⟨some d, some c⟩) s t key).error =
        some (GoError.wrap GoError.errCacheError e) ∧
      goIs (Lookaside.Get (some ⟨some d, some c⟩) s t key).error
        GoError.errCacheError = true) ∧
    (Lookaside.Set (some ⟨some d, some c⟩) s t key w).error = some e2 := by
  refine ⟨⟨?_, ?_⟩, ?_⟩
  · simp [Lookaside.Get, hc, goIs, hnil, hd, hcs]
  · simp [Lookaside.Get, hc, goIs, hnil, hd, hcs, GoError.is]
  · simp [Lookaside.Set, hds, hcs2]

/-- Witness for the amended C5 at concrete mocks: the `Get` refill
failure comes back wrapped in `ErrCacheError`, the `Set` cache-write
failure comes back as the bare `backend 4`. -/
theorem C5_cache_error_tagging_witness :
    goIs (Lookaside.Get (some ⟨some (mockImpl (fun _ => (some [7], none))
        (fun _ _ => none) (fun _ => none) none none (none, none)),
      some (mockImpl (fun _ => (some [], some GoError.errNil))
        (fun _ _ => some (GoError.backend 4)) (fun _ => none)
        none none (none, none))⟩) () () testKey).error GoError.errCacheError = true ∧
    (Lookaside.Set (some ⟨some (mockImpl (fun _ => (some [7], none))
        (fun _ _ => none) (fun _ => none) none none (none, none)),
      some (mockImpl (fun _ => (some [], some GoError.errNil))
        (fun _ _ => some (GoError.backend 4)) (fun _ => none)
        none none (none, none))⟩) () () testKey (some [1])).error =
      some (GoError.backend 4) := by
  have h := C5_cache_error_tagging
    (mockImpl (fun _ => (some [7], none))
      (fun _ _ => none) (fun _ => none) none none (none, none))
    (mockImpl (fun _ => (some [], some GoError.errNil))
      (fun _ _ => some (GoError.backend 4)) (fun _ => none)
      none none (none, none))
    () () testKey (some [1]) (some []) (some [7]) GoError.errNil
    (GoError.backend 4) (GoError.backend 4) () () () () ()
    rfl rfl rfl rfl rfl rfl
  exact ⟨h.1.2, h.2⟩

/-- Claim C6: the composite `Set` writes the data store first; a data
failure is returned at once with the cache untouched and `cache.Set`
never invoked, while after a data success `cache.Set` runs and its
error is propagated. -/
theorem C6_set_data_first {σ τ : Type}
    (d : DBImpl σ) (c : DBImpl τ) (s : σ) (t : τ) (key : String)
    (w : GoBytes) :
    (∀ e s1, d.set s key w = (some e, s1) →
      (Lookaside.Set (some ⟨some d, some c⟩) s t key w).error = some e ∧
      (Lookaside.Set (some ⟨some d, some c⟩) s t key w).cacheState = t ∧
      (Lookaside.Set (some ⟨some d, some c⟩) s t key w).trace =
        [Event.dataSet key w]) ∧
    (∀ s1, d.set s key w = (none, s1) →
      (Lookaside.Set (some ⟨some d, some c⟩) s t key w).error =
        (c.set t key w).1 ∧
      (Lookaside.Set (some ⟨some d, some c⟩) s t key w).trace =
        [Event.dataSet key w, Event.cacheSet key w]) := by
  constructor
  · intro e s1 hd
    simp [Lookaside.Set, hd]
  · intro s1 hd
    simp [Lookaside.Set, hd]

/-- Witness for C6: a data store failing with `backend 5` (first
branch) and a succeeding data store beside a cache failing with
`backend 6` (second branch). -/
theorem C6_set_data_first_witness :
    ((Lookaside.Set (some ⟨some (mockImpl (fun _ => (none, none))
        (fun _ _ => some (GoError.backend 5)) (fun _ => none)
        none none (none, none)), some happyImpl⟩) () () testKey (some [1])).error =
      some (GoError.backend 5) ∧
     (Lookaside.Set (some ⟨some (mockImpl (fun _ => (none, none))
        (fun _ _ => some (GoError.backend 5)) (fun _ => none)
        none none (none, none)), some happyImpl⟩) () () testKey (some [1])).trace =
      [Event.dataSet testKey (some [1])]) ∧
    (Lookaside.Set (some ⟨some happyImpl,
      some (mockImpl (fun _ => (none, none)) (fun _ _ => some (GoError.backend 6))
        (fun _ => none) none none (none, none))⟩) () () testKey (some [1])).error =
      some (GoError.backend 6) := by
  constructor
  · have h := (C6_set_data_first (mockImpl (fun _ => (none, none))
      (fun _ _ => some (GoError.backend 5)) (fun _ => none)
      none none (none, none)) happyImpl () () testKey (some [1])).1
      (GoError.backend 5) () rfl
    exact ⟨h.1, h.2.2⟩
  · exact ((C6_set_data_first happyImpl (mockImpl (fun _ => (none, none))
      (fun _ _ => some (GoError.backend 6)) (fun _ => none)
      none none (none, none)) () () testKey (some [1])).2 () rfl).1

/-- Claim C7: the composite `Delete` always performs both inner
deletes, in the order data then cache, and returns the data-side error
if any, else the cache-side error, else nil. -/
theorem C7_delete_dual_dispatch {σ τ : Type}
    (d : DBImpl σ) (c : DBImpl τ) (s : σ) (t : τ) (key : String)
    (de ce2 : Option GoError) (s1 : σ) (t1 : τ)
    (hd : d.delete s key = (de, s1))
    (hc : c.delete t key = (ce2, t1)) :
    (Lookaside.Delete (some ⟨some d, some c⟩) s t key).trace =
      [Event.dataDelete key, Event.cacheDelete key] ∧
    (Lookaside.Delete (some ⟨some d, some c⟩) s t key).error =
      (if de.isSome then de else if ce2.isSome then ce2 else none) := by
  simp [Lookaside.Delete, hd, hc]

/-- Witness for C7: both inner deletes fail with distinct errors and
the data-side `backend 5` wins while both invocations still appear in
the trace. -/
theorem C7_delete_dual_dispatch_witness :
    (Lookaside.Delete (some ⟨some (mockImpl (fun _ => (none, none))
        (fun _ _ => none) (fun _ => some (GoError.backend 5))
        none none (none, none)),
      some (mockImpl (fun _ => (none, none)) (fun _ _ => none)
        (fun _ => some (GoError.backend 6)) none none (none, none))⟩)
      () () testKey).trace = [Event.dataDelete testKey, Event.cacheDelete testKey] ∧
    (Lookaside.Delete (some ⟨some (mockImpl (fun _ => (none, none))
        (fun _ _ => none) (fun _ => some (GoError.backend 5))
        none none (none, none)),
      some (mockImpl (fun _ => (none, none)) (fun _ _ => none)
        (fun _ => some (GoError.backend 6)) none none (none, none))⟩)
      () () testKey).error = some (GoError.backend 5) := by
  have h := C7_delete_dual_dispatch
    (mockImpl (fun _ => (none, none)) (fun _ _ => none)
      (fun _ => some (GoError.backend 5)) none none (none, none))
    (mockImpl (fun _ => (none, none)) (fun _ _ => none)
      (fun _ => some (GoError.backend 6)) none none (none, none))
    () () testKey (some (GoError.backend 5)) (some (GoError.backend 6)) () ()
    rfl rfl
  exact ⟨h.1, by rw [h.2]; rfl⟩

/-- Counterexample to claim C8: with a non-nil `Database` handle and a
nil `Cache` handle the factory `Dial` returns `hord.ErrInvalidDatabase`,
not the `InvalidCache` error the claim names. -/
theorem C8_nil_cache_counterexample :
    cache.Dial (σ := Unit) (τ := Unit)
      ⟨CacheType.lookasideType, some happyImpl, none⟩ =
      DialResult.failure GoError.errInvalidDatabase ∧
    cache.Dial (σ := Unit) (τ := Unit)
      ⟨CacheType.lookasideType, some happyImpl, none⟩ ≠
      DialResult.failure GoError.errInvalidCache := by
  refine ⟨rfl, ?_⟩
  intro h
  rw [show cache.Dial (σ := Unit) (τ := Unit)
      ⟨CacheType.lookasideType, some happyImpl, none⟩ =
      DialResult.failure GoError.errInvalidDatabase from rfl] at h
  simp at h

/-- Claim C8 as amended: a nil `Database` or nil `Cache` handle makes
the factory `Dial` fail with `hord.ErrInvalidDatabase` (for both
handles — there is no separate `InvalidCache` outcome), checked before
`CacheType` is inspected and without invoking any inner method; with
both handles non-nil, `CacheType == Lookaside` yields the look-aside
driver wired to the two handles, `CacheType == None` yields the
`Database` handle itself unwrapped, and any other `CacheType` value
fails with the distinct `NoType` error. -/
theorem C8_factory_dispatch {σ τ : Type} (cfg : FactoryConfig σ τ) :
    ((cfg.database.isNone ∨ cfg.cache.isNone) →
      cache.Dial cfg = DialResult.failure GoError.errInvalidDatabase) ∧
    (∀ d c, cfg.database = some d → cfg.cache = some c →
      (cfg.cacheType = CacheType.lookasideType →
        cache.Dial cfg = DialResult.lookasideDriver ⟨some d, some c⟩) ∧
      (cfg.cacheType = CacheType.noneType →
        cache.Dial cfg = DialResult.passthrough d) ∧
      (cfg.cacheType ≠ CacheType.lookasideType →
        cfg.cacheType ≠ CacheType.noneType →
        cache.Dial cfg = DialResult.failure GoError.errNoType)) := by
  constructor
  · intro h
    rcases h with h | h <;> simp [cache.Dial, h]
  · intro d c hd0 hc0
    refine ⟨?_, ?_, ?_⟩
    · intro hl
      simp [cache.Dial, hd0, hc0, hl, Lookaside.Dial]
    · intro hn
      have hln : CacheType.noneType ≠ CacheType.lookasideType := by decide
      simp [cache.Dial, hd0, hc0, hn, hln]
    · intro h1 h2
      simp [cache.Dial, hd0, hc0, h1, h2]

/-- Witness for the amended C8 at concrete configurations: both nil
branches, both recognized selectors, and an unrecognized selector. -/
theorem C8_factory_dispatch_witness :
    cache.Dial (σ := Unit) (τ := Unit)
      ⟨CacheType.lookasideType, none, some happyImpl⟩ =
      DialResult.failure GoError.errInvalidDatabase ∧
    cache.Dial (σ := Unit) (τ := Unit)
      ⟨CacheType.lookasideType, some happyImpl, some happyImpl⟩ =
      DialResult.lookasideDriver ⟨some happyImpl, some happyImpl⟩ ∧
    cache.Dial (σ := Unit) (τ := Unit)
      ⟨CacheType.noneType, some happyImpl, some happyImpl⟩ =
      DialResult.passthrough happyImpl ∧
    cache.Dial (σ := Unit) (τ := Unit)
      ⟨bogusCacheType, some happyImpl, some happyImpl⟩ =
      DialResult.failure GoError.errNoType := by
  refine ⟨(C8_factory_dispatch _).1 (Or.inl rfl), ?_, ?_, ?_⟩
  · exact (((C8_factory_dispatch _).2 happyImpl happyImpl rfl rfl).1) rfl
  · exact (((C8_factory_dispatch _).2 happyImpl happyImpl rfl rfl).2.1) rfl
  · exact (((C8_factory_dispatch _).2 happyImpl happyImpl rfl rfl).2.2)
      (by decide) (by decide)

/-- Looking up a key immediately after writing it in the association
list model of the Go map yields the written value. -/
theorem assocGet_assocSet_self (m : List (String × GoBytes)) (key : String)
    (data : GoBytes) : assocGet (assocSet m key data) key = some data := by
  induction m with
  | nil => simp [assocSet, assocGet]
  | cons hd tl ih =>
    obtain ⟨k, v⟩ := hd
    by_cases h : k = key <;> simp [assocSet, assocGet, h, ih]

/-- A non-empty string passes `ValidKey`. -/
theorem validKey_of_ne (key : String) (hk : key ≠ "") : ValidKey key = none := by
  have hpos : 0 < key.length := by
    cases key with
    | mk data =>
      cases data with
      | nil => exact absurd rfl hk
      | cons c cs => simp [String.length]
  simp [ValidKey, hpos]

/-- A non-empty byte slice passes `ValidData`. -/
theorem validData_of_ne (v : Bytes) (hv : v ≠ []) : ValidData (some v) = none := by
  have hpos : 0 < v.length := List.length_pos.mpr hv
  simp [ValidData, goLen, hpos]

/-- Claim C9: for a non-empty key and non-empty value, `Set` then `Get`
returns exactly the written value with no error, both on a bare hashmap
store and through a look-aside composite wrapping two hashmap stores,
from any live starting states. -/
theorem C9_set_get_roundtrip (key : String) (v : Bytes)
    (m m2 : List (String × GoBytes)) (hk : key ≠ "") (hv : v ≠ []) :
    ((hashmap.Set (some m) key (some v)).1 = none ∧
     (hashmap.Get (hashmap.Set (some m) key (some v)).2 key).1 =
       (some v, none)) ∧
    ((Lookaside.Set (some ⟨some hashmapImpl, some hashmapImpl⟩)
        (some m) (some m2) key (some v)).error = none ∧
     (Lookaside.Get (some ⟨some hashmapImpl, some hashmapImpl⟩)
        (Lookaside.Set (some ⟨some hashmapImpl, some hashmapImpl⟩)
          (some m) (some m2) key (some v)).dataState
        (Lookaside.Set (some ⟨some hashmapImpl, some hashmapImpl⟩)
          (some m) (some m2) key (some v)).cacheState key).result = some v ∧
     (Lookaside.Get (some ⟨some hashmapImpl, some hashmapImpl⟩)
        (Lookaside.Set (some ⟨some hashmapImpl, some hashmapImpl⟩)
          (some m) (some m2) key (some v)).dataState
        (Lookaside.Set (some ⟨some hashmapImpl, some hashmapImpl⟩)
          (some m) (some m2) key (some v)).cacheState key).error = none) := by
  have hvk := validKey_of_ne key hk
  have hvd := validData_of_ne v hv
  constructor
  · constructor
    · simp [hashmap.Set, hvk, hvd]
    · simp [hashmap.Set, hashmap.Get, hvk, hvd, assocGet_assocSet_self]
  · refine ⟨?_, ?_, ?_⟩ <;>
      simp [Lookaside.Set, Lookaside.Get, hashmapImpl, hashmap.Set, hashmap.Get,
        hvk, hvd, assocGet_assocSet_self, goIs]

/-- Witness for C9 at the key `testKey`, value `[1]`, and empty
starting maps. -/
theorem C9_set_get_roundtrip_witness :
    (hashmap.Get (hashmap.Set (some []) testKey (some [1])).2 testKey).1 =
      (some [1], none) ∧
    (Lookaside.Get (some ⟨some hashmapImpl, some hashmapImpl⟩)
        (Lookaside.Set (some ⟨some hashmapImpl, some hashmapImpl⟩)
          (some []) (some []) testKey (some [1])).dataState
        (Lookaside.Set (some ⟨some hashmapImpl, some hashmapImpl⟩)
          (some []) (some []) testKey (some [1])).cacheState testKey).result =
      some [1] := by
  have h := C9_set_get_roundtrip testKey [1] [] [] (by decide) (by decide)
  exact ⟨h.1.2, h.2.2.1⟩

/-- Claim C10: every contract operation on a composite whose receiver
or inner handle is nil returns the `ErrNoDial` sentinel without
invoking any inner method (empty trace), with a nil result for `Get`,
`Keys`, and `CacheKeys`, and `Close` is an error-free no-op that leaves
both states untouched. -/
theorem C10_not_dialed_guard {σ τ : Type}
    (db : Option (Lookaside σ τ)) (s : σ) (t : τ) (key : String) (w : GoBytes)
    (h : notDialed db = true) :
    (Lookaside.Setup db s t).error = some GoError.errNoDial ∧
    (Lookaside.Setup db s t).trace = [] ∧
    (Lookaside.HealthCheck db s t).error = some GoError.errNoDial ∧
    (Lookaside.HealthCheck db s t).trace = [] ∧
    (Lookaside.Get db s t key).result = none ∧
    (Lookaside.Get db s t key).error = some GoError.errNoDial ∧
    (Lookaside.Get db s t key).trace = [] ∧
    (Lookaside.Set db s t key w).error = some GoError.errNoDial ∧
    (Lookaside.Set db s t key w).trace = [] ∧
    (Lookaside.Delete db s t key).error = some GoError.errNoDial ∧
    (Lookaside.Delete db s t key).trace = [] ∧
    (Lookaside.Keys db s t).result = none ∧
    (Lookaside.Keys db s t).error = some GoError.errNoDial ∧
    (Lookaside.CacheKeys db s t).result = none ∧
    (Lookaside.CacheKeys db s t).error = some GoError.errNoDial ∧
    (Lookaside.Close db s t).error = none ∧
    (Lookaside.Close db s t).dataState = s ∧
    (Lookaside.Close db s t).cacheState = t ∧
    (Lookaside.Close db s t).trace = [] := by
  cases db with
  | none =>
    simp [Lookaside.Setup, Lookaside.HealthCheck, Lookaside.Get, Lookaside.Set,
      Lookaside.Delete, Lookaside.Keys, Lookaside.CacheKeys, Lookaside.Close]
  | some la =>
    obtain ⟨od, oc⟩ := la
    cases od with
    | none =>
      simp [Lookaside.Setup, Lookaside.HealthCheck, Lookaside.Get,
        Lookaside.Set, Lookaside.Delete, Lookaside.Keys, Lookaside.CacheKeys,
        Lookaside.Close]
    | some d =>
      cases oc with
      | none =>
        simp [Lookaside.Setup, Lookaside.HealthCheck, Lookaside.Get,
          Lookaside.Set, Lookaside.Delete, Lookaside.Keys, Lookaside.CacheKeys,
          Lookaside.Close]
      | some c => simp [notDialed] at h

/-- Witness for C10: a nil receiver and a composite with a nil cache
handle, each probed at a concrete key. -/
theorem C10_not_dialed_guard_witness :
    (Lookaside.Get (none : Option (Lookaside Unit Unit)) () () testKey).result =
      none ∧
    (Lookaside.Get (none : Option (Lookaside Unit Unit)) () () testKey).error =
      some GoError.errNoDial ∧
    (Lookaside.Setup (some (⟨some happyImpl, none⟩ : Lookaside Unit Unit))
       () ()).error = some GoError.errNoDial ∧
    (Lookaside.Close (some (⟨some happyImpl, none⟩ : Lookaside Unit Unit))
       () ()).trace = [] := by
  have h1 := C10_not_dialed_guard (none : Option (Lookaside Unit Unit))
    () () testKey none rfl
  have h2 := C10_not_dialed_guard
    (some (⟨some happyImpl, none⟩ : Lookaside Unit Unit)) () () testKey none rfl
  exact ⟨h1.2.2.2.2.1, h1.2.2.2.2.2.1, h2.1, h2.2.2.2.2.2.2.2.2.2.2.2.2.2.2.2.2.2.2⟩
